import Mathlib

/-
Verification of the overlap-checker geometric-cleanup engine.

The development shallowly embeds the driver logic of the repository
(`geometry.hpp`, the classifier/imprinter in the latest document/geometry
translation unit, the overlap-checker main, the imprinting stage and the
merger stage) in Lean.  The OCCT CAD kernel itself is external to the
repository; each kernel invocation is modelled by a record of its observable
outcome (error flags, warning counts, reported volumes), and the exact
boolean operations on solids are modelled on finite sets of cells.
C++ doubles are modelled as rationals.
-/

namespace OverlapChecker

/-- Status of a pairwise solid-intersection classification,
from the enum intersect_status in geometry.hpp. -/
inductive intersect_status where
  | failed
  | timeout
  | distinct
  | touching
  | overlap
  deriving DecidableEq, Repr

/-- Result record of classify_solid_intersection, from struct
intersect_result in geometry.hpp. -/
structure intersect_result where
  status : intersect_status
  fuzzy_value : ℚ
  num_filler_warnings : ℕ
  num_common_warnings : ℕ
  num_section_warnings : ℕ
  vol_common : ℚ
  vol_cut : ℚ
  vol_cut12 : ℚ
  pave_time_seconds : ℚ
  deriving DecidableEq, Repr

/-- Observable outcome of the OCCT kernel calls made by one invocation of
classify_solid_intersection on a given pair at a given fuzzy value.  The
kernel is external to the repository; the driver only branches on these
observations.  wants_break records whether the kernel polled the progress
observer after the paving deadline passed; filler_fuzzy is the value
reported by filler.FuzzyValue(); vol_common is the result of
volume_of_shape_maybe_neg on the COMMON shape and may be negative, as may
the raw CUT volumes (volume_of_shape then throws). -/
structure classify_kernel where
  wants_break : Bool
  filler_warnings : ℕ
  filler_fuzzy : ℚ
  pave_secs : ℚ
  filler_error : Bool
  common_error : Bool
  common_warnings : ℕ
  common_has_solid : Bool
  vol_common : ℚ
  cut_error : Bool
  vol_cut : ℚ
  cut21_error : Bool
  vol_cut12 : ℚ
  section_error : Bool
  section_warnings : ℕ
  section_has_vertex : Bool
  deriving DecidableEq, Repr

/-- classify_solid_intersection from the latest geometry translation unit:
the timeout observer is armed only for a strictly positive
pave_time_millisecs; after paving, COMMON is built, and if it contains a
solid the two CUT volumes are taken (volume_of_shape throws on a negative
volume, modelled as Except.error), then a negative common volume within
ten percent of the smaller CUT volume is reclassified as touching while a
larger one throws; otherwise SECTION decides touching versus distinct. -/
def classify_solid_intersection (k : classify_kernel) (_fuzzy_value : ℚ)
    (pave_time_millisecs : ℕ) : Except String intersect_result :=
  let r0 : intersect_result :=
    { status := .failed, fuzzy_value := 0,
      num_filler_warnings := 0, num_common_warnings := 0,
      num_section_warnings := 0,
      vol_common := -1, vol_cut := -1, vol_cut12 := -1,
      pave_time_seconds := -1 }
  let expired : Bool := decide (0 < pave_time_millisecs) && k.wants_break
  let r1 := { r0 with
    pave_time_seconds := k.pave_secs,
    fuzzy_value := k.filler_fuzzy,
    num_filler_warnings := k.filler_warnings }
  if expired then .ok { r1 with status := .timeout } else
  if k.filler_error then .ok r1 else
  let r2 := { r1 with num_common_warnings := k.common_warnings }
  if k.common_error then .ok r2 else
  if k.common_has_solid then
    let r3 := { r2 with vol_common := k.vol_common }
    if k.cut_error then .ok r3 else
    if k.vol_cut < 0 then .error "volume of shape less than zero" else
    let r4 := { r3 with vol_cut := k.vol_cut }
    if k.cut21_error then .ok r4 else
    if k.vol_cut12 < 0 then .error "volume of shape less than zero" else
    let r5 := { r4 with vol_cut12 := k.vol_cut12 }
    if k.vol_common < 0 then
      if min r5.vol_cut r5.vol_cut12 * (1/10) < -k.vol_common then
        .error "negative volume too large"
      else .ok { r5 with status := .touching }
    else .ok { r5 with status := .overlap }
  else
    let r6 := { r2 with num_section_warnings := k.section_warnings }
    if k.section_error then .ok r6 else
    .ok { r6 with
      status := if k.section_has_vertex then .touching else .distinct }

/-- The per-pair worker shape_classifier of the overlap checker: it walks
the fuzzy-value ladder in order, keeping the first result whose status is
not failed; when every value fails, the last (failed) result is returned.
An exception thrown by classify_solid_intersection is caught, logged FATAL
and the process aborted, modelled as none.  The second argument models the
C++ result variable that is live across iterations (uninitialised before
the first one). -/
def shape_classifier (k : ℚ → classify_kernel) (pave_time_millisecs : ℕ) :
    List ℚ → intersect_result → Option intersect_result
  | [], result => some result
  | fuzzy_value :: rest, _ =>
    match classify_solid_intersection (k fuzzy_value) fuzzy_value
        pave_time_millisecs with
    | .error _ => none
    | .ok result =>
      if result.status ≠ intersect_status.failed then some result
      else shape_classifier k pave_time_millisecs rest result

deriving instance DecidableEq for Except

/-- A kernel outcome in which every operation succeeds and the pair is
found distinct (no common solid, empty section). -/
def calm_kernel : classify_kernel :=
  { wants_break := false, filler_warnings := 0, filler_fuzzy := 1/1000,
    pave_secs := 0, filler_error := false, common_error := false,
    common_warnings := 0, common_has_solid := false, vol_common := -1,
    cut_error := false, vol_cut := -1, cut21_error := false,
    vol_cut12 := -1, section_error := false, section_warnings := 0,
    section_has_vertex := false }

/-- The classification calm_kernel produces. -/
def calm_result : intersect_result :=
  { status := .distinct, fuzzy_value := 1/1000,
    num_filler_warnings := 0, num_common_warnings := 0,
    num_section_warnings := 0,
    vol_common := -1, vol_cut := -1, vol_cut12 := -1,
    pave_time_seconds := 0 }

/-- A stand-in for the uninitialised C++ result variable. -/
def stale_result : intersect_result :=
  { status := .failed, fuzzy_value := 0,
    num_filler_warnings := 0, num_common_warnings := 0,
    num_section_warnings := 0,
    vol_common := -1, vol_cut := -1, vol_cut12 := -1,
    pave_time_seconds := -1 }

/-- A kernel outcome with a small negative common volume: within the ten
percent band of the smaller CUT volume, so reclassified as touching. -/
def small_neg_kernel : classify_kernel :=
  { calm_kernel with
    common_has_solid := true
    vol_common := -1
    vol_cut := 100
    vol_cut12 := 200 }

/-- A kernel outcome whose negative common volume exceeds the ten percent
band: classify_solid_intersection throws on it. -/
def large_neg_kernel : classify_kernel :=
  { calm_kernel with
    common_has_solid := true
    vol_common := -1
    vol_cut := 1
    vol_cut12 := 1 }

/-- C10: with pave_time_millisecs = 0 the timeout observer is never armed,
so whenever classify_solid_intersection returns a result its status is
failed, distinct, touching or overlap, never timeout. -/
theorem classify_zero_pave_time_never_timeout
    (k : classify_kernel) (fuzzy_value : ℚ) (r : intersect_result)
    (h : classify_solid_intersection k fuzzy_value 0 = .ok r) :
    r.status = .failed ∨ r.status = .distinct ∨
      r.status = .touching ∨ r.status = .overlap := by
  simp only [classify_solid_intersection] at h
  simp only [Nat.lt_irrefl, decide_False, Bool.false_and, Bool.false_eq_true,
    if_false] at h
  split_ifs at h <;>
    first
      | exact Except.noConfusion h
      | (injection h with h; subst h;
          first
            | exact Or.inl rfl
            | exact Or.inr (Or.inl rfl)
            | exact Or.inr (Or.inr (Or.inl rfl))
            | exact Or.inr (Or.inr (Or.inr rfl)))

/-- Witness for C10 at a concrete kernel outcome. -/
theorem classify_zero_pave_time_never_timeout_witness :
    calm_result.status = .failed ∨ calm_result.status = .distinct ∨
      calm_result.status = .touching ∨ calm_result.status = .overlap :=
  classify_zero_pave_time_never_timeout calm_kernel (1/1000) calm_result rfl

/-- C2, counterexample: at a kernel outcome whose negative common volume
exceeds ten percent of the smaller CUT volume, the claim as stated expects a
recorded per-pair failure; the code instead throws from
classify_solid_intersection, and the worker catches the exception and aborts
the whole process (shape_classifier yields no per-pair result at all). -/
theorem classify_negative_common_abort_cex :
    |large_neg_kernel.vol_common| >
      min large_neg_kernel.vol_cut large_neg_kernel.vol_cut12 * (1/10) ∧
    classify_solid_intersection large_neg_kernel 0 0
      = .error "negative volume too large" ∧
    shape_classifier (fun _ => large_neg_kernel) 0 [0] stale_result = none := by
  have herr : classify_solid_intersection large_neg_kernel 0 0
      = .error "negative volume too large" := by
    simp only [classify_solid_intersection]
    norm_num [large_neg_kernel, calm_kernel]
  exact ⟨by norm_num [large_neg_kernel, calm_kernel], herr,
    by simp [shape_classifier, herr]⟩

/-- C2, amended: on the negative-common-volume path, if the magnitude of the
negative common volume is at most a tenth of the smaller CUT volume the pair
is reclassified as Touching; if it exceeds that threshold,
classify_solid_intersection throws and the classifier worker aborts the
process (no per-pair failure is recorded). -/
theorem classify_negative_common_threshold
    (k : classify_kernel) (fuzzy_value : ℚ) (pave_time_millisecs : ℕ)
    (rest : List ℚ) (init : intersect_result)
    (hbrk : k.wants_break = false)
    (hfe : k.filler_error = false)
    (hce : k.common_error = false)
    (hcs : k.common_has_solid = true)
    (hke : k.cut_error = false)
    (hk21 : k.cut21_error = false)
    (hvc : 0 ≤ k.vol_cut) (hvc12 : 0 ≤ k.vol_cut12)
    (hneg : k.vol_common < 0) :
    (|k.vol_common| ≤ min k.vol_cut k.vol_cut12 * (1/10) →
      classify_solid_intersection k fuzzy_value pave_time_millisecs =
        .ok { status := .touching, fuzzy_value := k.filler_fuzzy,
              num_filler_warnings := k.filler_warnings,
              num_common_warnings := k.common_warnings,
              num_section_warnings := 0,
              vol_common := k.vol_common, vol_cut := k.vol_cut,
              vol_cut12 := k.vol_cut12,
              pave_time_seconds := k.pave_secs }) ∧
    (min k.vol_cut k.vol_cut12 * (1/10) < |k.vol_common| →
      classify_solid_intersection k fuzzy_value pave_time_millisecs =
        .error "negative volume too large" ∧
      shape_classifier (fun _ => k) pave_time_millisecs
        (fuzzy_value :: rest) init = none) := by
  constructor
  · intro hle
    rw [abs_of_neg hneg] at hle
    simp only [classify_solid_intersection]
    simp [hbrk, hfe, hce, hcs, hke, hk21, not_lt.mpr hvc, not_lt.mpr hvc12,
      hneg]
    simpa using hle
  · intro hlt
    rw [abs_of_neg hneg] at hlt
    have herr : classify_solid_intersection k fuzzy_value pave_time_millisecs
        = .error "negative volume too large" := by
      simp only [classify_solid_intersection]
      simp [hbrk, hfe, hce, hcs, hke, hk21, not_lt.mpr hvc, not_lt.mpr hvc12,
        hneg]
      simpa using hlt
    refine ⟨herr, ?_⟩
    simp [shape_classifier, herr]

/-- Witness for the amended C2 at a concrete kernel outcome whose negative
common volume lies inside the ten percent band. -/
theorem classify_negative_common_threshold_witness :
    (|small_neg_kernel.vol_common| ≤
        min small_neg_kernel.vol_cut small_neg_kernel.vol_cut12 * (1/10) →
      classify_solid_intersection small_neg_kernel (1/1000) 0 =
        .ok { status := .touching,
              fuzzy_value := small_neg_kernel.filler_fuzzy,
              num_filler_warnings := small_neg_kernel.filler_warnings,
              num_common_warnings := small_neg_kernel.common_warnings,
              num_section_warnings := 0,
              vol_common := small_neg_kernel.vol_common,
              vol_cut := small_neg_kernel.vol_cut,
              vol_cut12 := small_neg_kernel.vol_cut12,
              pave_time_seconds := small_neg_kernel.pave_secs }) ∧
    (min small_neg_kernel.vol_cut small_neg_kernel.vol_cut12 * (1/10) <
        |small_neg_kernel.vol_common| →
      classify_solid_intersection small_neg_kernel (1/1000) 0 =
        .error "negative volume too large" ∧
      shape_classifier (fun _ => small_neg_kernel) 0 [1/1000] stale_result
        = none) :=
  classify_negative_common_threshold small_neg_kernel (1/1000) 0 []
    stale_result rfl rfl rfl rfl rfl rfl (by norm_num [small_neg_kernel,
      calm_kernel]) (by norm_num [small_neg_kernel, calm_kernel])
    (by norm_num [small_neg_kernel, calm_kernel])

/-- C3: for a non-empty tolerance ladder on which no invocation throws, the
worker tries the fuzzy values in list order and returns the result of the
first invocation whose status is not failed (every earlier one having
failed); only when every tolerance yields failed is the returned status
failed.  In particular a timeout result is terminal: it is returned as is
and later tolerances are never tried. -/
theorem shape_classifier_tolerance_ladder
    (k : ℚ → classify_kernel) (pave : ℕ) (l : List ℚ)
    (init : intersect_result) (hne : l ≠ [])
    (hok : ∀ f ∈ l, ∃ r,
      classify_solid_intersection (k f) f pave = .ok r) :
    ∃ r, shape_classifier k pave l init = some r ∧
      ((∃ i, ∃ h : i < l.length,
          classify_solid_intersection (k (l.get ⟨i, h⟩)) (l.get ⟨i, h⟩) pave
            = .ok r ∧
          r.status ≠ .failed ∧
          ∀ f ∈ l.take i, ∃ rf,
            classify_solid_intersection (k f) f pave = .ok rf ∧
            rf.status = .failed) ∨
        (r.status = .failed ∧
          ∀ f ∈ l, ∃ rf,
            classify_solid_intersection (k f) f pave = .ok rf ∧
            rf.status = .failed)) := by
  induction l generalizing init with
  | nil => exact absurd rfl hne
  | cons f rest ih =>
    obtain ⟨r0, hr0⟩ := hok f (List.mem_cons_self f rest)
    by_cases hst : r0.status = intersect_status.failed
    · have hstep : shape_classifier k pave (f :: rest) init
          = shape_classifier k pave rest r0 := by
        simp [shape_classifier, hr0, hst]
      cases rest with
      | nil =>
        refine ⟨r0, ?_, Or.inr ⟨hst, ?_⟩⟩
        · rw [hstep]; rfl
        · intro f' hf'
          rcases List.mem_singleton.mp hf' with h
          subst h
          exact ⟨r0, hr0, hst⟩
      | cons g t =>
        obtain ⟨r, hsc, hcase⟩ := ih r0 (by simp)
          (fun f' hf' => hok f' (List.mem_cons_of_mem f hf'))
        refine ⟨r, by rw [hstep]; exact hsc, ?_⟩
        rcases hcase with ⟨i, hi, hclass, hrs, hpre⟩ | ⟨hrs, hall⟩
        · refine Or.inl ⟨i + 1, Nat.succ_lt_succ hi, hclass, hrs, ?_⟩
          intro f' hf'
          rw [List.take_succ_cons] at hf'
          rcases List.mem_cons.mp hf' with h | h
          · subst h; exact ⟨r0, hr0, hst⟩
          · exact hpre f' h
        · refine Or.inr ⟨hrs, ?_⟩
          intro f' hf'
          rcases List.mem_cons.mp hf' with h | h
          · subst h; exact ⟨r0, hr0, hst⟩
          · exact hall f' h
    · refine ⟨r0, by simp [shape_classifier, hr0, hst], ?_⟩
      exact Or.inl ⟨0, Nat.succ_pos _, hr0, hst, by simp⟩

/-- Witness for C3 on the default ladder with an all-succeeding kernel. -/
theorem shape_classifier_tolerance_ladder_witness :
    ∃ r, shape_classifier (fun _ => calm_kernel) 0 [1/1000, 0] stale_result
        = some r ∧
      ((∃ i, ∃ h : i < ([1/1000, 0] : List ℚ).length,
          classify_solid_intersection
              ((fun _ => calm_kernel) (([1/1000, 0] : List ℚ).get ⟨i, h⟩))
              (([1/1000, 0] : List ℚ).get ⟨i, h⟩) 0
            = .ok r ∧
          r.status ≠ .failed ∧
          ∀ f ∈ ([1/1000, 0] : List ℚ).take i, ∃ rf,
            classify_solid_intersection ((fun _ => calm_kernel) f) f 0
              = .ok rf ∧
            rf.status = .failed) ∨
        (r.status = .failed ∧
          ∀ f ∈ ([1/1000, 0] : List ℚ), ∃ rf,
            classify_solid_intersection ((fun _ => calm_kernel) f) f 0
              = .ok rf ∧
            rf.status = .failed)) :=
  shape_classifier_tolerance_ladder (fun _ => calm_kernel) 0 [1/1000, 0]
    stale_result (by simp) (fun _ _ => ⟨calm_result, rfl⟩)

/-- Ideal-kernel model of a kernel solid: a finite set of unit cells.  The
kernel boolean operations COMMON, CUT, CUT21 and FUSE are modelled as
intersection, difference and union of these sets; whether each kernel
operation reports an error stays abstract (imprint_kernel below). -/
abbrev Solid := Finset ℕ

/-- volume_of_shape: the kernel volume evaluator, modelled as the cell
count of the ideal solid (hence never negative on this model). -/
def volume_of_shape (s : Solid) : ℚ := s.card

/-- shape_has_verticies: the TopExp vertex explorer finds a vertex exactly
when the shape is non-empty. -/
def shape_has_verticies (s : Solid) : Bool := decide s.Nonempty

/-- Status of a pairwise imprint, from the enum imprint_status in
geometry.hpp. -/
inductive imprint_status where
  | failed
  | distinct
  | merge_into_shape
  | merge_into_tool
  deriving DecidableEq, Repr

/-- Result record of perform_solid_imprinting, from struct imprint_result
in geometry.hpp. -/
structure imprint_result where
  status : imprint_status
  fuzzy_value : ℚ
  num_filler_warnings : ℕ
  num_common_warnings : ℕ
  num_fuse_warnings : ℕ
  vol_common : ℚ
  vol_cut : ℚ
  vol_cut12 : ℚ
  shape : Solid
  tool : Solid
  deriving DecidableEq

/-- Error flags and reported bookkeeping of the kernel operations driven by
one call of perform_solid_imprinting. -/
structure imprint_kernel where
  filler_error : Bool
  filler_fuzzy : ℚ
  filler_warnings : ℕ
  common_error : Bool
  common_warnings : ℕ
  cut_error : Bool
  cut21_error : Bool
  fuse_error : Bool
  fuse_warnings : ℕ
  deriving DecidableEq, Repr

/-- perform_solid_imprinting from the latest geometry translation unit:
pave-fill, then COMMON / CUT / CUT21 recording volumes and the two cut
shapes; a common shape without vertices means distinct, otherwise the
common volume is FUSEd into whichever cut result kept the larger volume
(ties merge into the shape). -/
def perform_solid_imprinting (k : imprint_kernel) (shape tool : Solid)
    (_fuzzy_value : ℚ) : imprint_result :=
  let r0 : imprint_result :=
    { status := .failed, fuzzy_value := 0,
      num_filler_warnings := 0, num_common_warnings := 0,
      num_fuse_warnings := 0,
      vol_common := -1, vol_cut := -1, vol_cut12 := -1,
      shape := ∅, tool := ∅ }
  let r1 := { r0 with
    num_filler_warnings := k.filler_warnings
    fuzzy_value := k.filler_fuzzy }
  if k.filler_error then r1 else
  let r2 := { r1 with num_common_warnings := k.common_warnings }
  if k.common_error then r2 else
  let common := shape ∩ tool
  let r3 := { r2 with vol_common := volume_of_shape common }
  if k.cut_error then r3 else
  let r4 := { r3 with
    shape := shape \ tool
    vol_cut := volume_of_shape (shape \ tool) }
  if k.cut21_error then r4 else
  let r5 := { r4 with
    tool := tool \ shape
    vol_cut12 := volume_of_shape (tool \ shape) }
  if !(shape_has_verticies common) then { r5 with status := .distinct }
  else
    let merge_into_shape : Bool := decide (r5.vol_cut ≥ r5.vol_cut12)
    let r6 := { r5 with num_fuse_warnings := k.fuse_warnings }
    if k.fuse_error then r6 else
    if merge_into_shape then
      { r6 with status := .merge_into_shape, shape := r5.shape ∪ common }
    else
      { r6 with status := .merge_into_tool, tool := r5.tool ∪ common }

/-- An imprint-kernel outcome in which every operation succeeds. -/
def exact_kernel : imprint_kernel :=
  { filler_error := false, filler_fuzzy := 0, filler_warnings := 0,
    common_error := false, common_warnings := 0, cut_error := false,
    cut21_error := false, fuse_error := false, fuse_warnings := 0 }

/-- An imprint-kernel outcome whose pave filler reports an error, so the
imprint fails. -/
def failing_kernel : imprint_kernel :=
  { exact_kernel with filler_error := true }

/-- C1, counterexample: a pair that imprints with status merge_into_shape
for which the merged-into solid keeps exactly its original volume, so the
claimed volume(shape) + vol_common is off by the (non-zero) common volume,
far beyond the fuzzy tolerance in use (here zero).  This matches the
repository's own test two objects overlapping at corner, where the 5-cube
keeps volume 125 rather than 126. -/
theorem perform_solid_imprinting_volume_cex :
    (perform_solid_imprinting exact_kernel {0, 1, 2} {2, 3} 0).status
      = .merge_into_shape ∧
    (perform_solid_imprinting exact_kernel {0, 1, 2} {2, 3} 0).vol_common
      = 1 ∧
    ¬(|volume_of_shape
          (perform_solid_imprinting exact_kernel {0, 1, 2} {2, 3} 0).shape
        - (volume_of_shape ({0, 1, 2} : Solid)
          + (perform_solid_imprinting exact_kernel {0, 1, 2} {2, 3} 0).vol_common)|
      ≤ (perform_solid_imprinting exact_kernel {0, 1, 2} {2, 3} 0).fuzzy_value) := by
  have hr : perform_solid_imprinting exact_kernel {0, 1, 2} {2, 3} 0
      = { status := .merge_into_shape, fuzzy_value := 0,
          num_filler_warnings := 0, num_common_warnings := 0,
          num_fuse_warnings := 0,
          vol_common := 1, vol_cut := 2, vol_cut12 := 1,
          shape := {0, 1, 2}, tool := {3} } := by decide
  rw [hr]
  norm_num [volume_of_shape]

/-- C1, amended: whenever perform_solid_imprinting returns
merge_into_shape, the returned merged solid has exactly the volume of the
input shape (the common volume is cut out and fused back in) while the
returned tool has volume(tool) - vol_common; symmetrically for
merge_into_tool. -/
theorem perform_solid_imprinting_volume
    (k : imprint_kernel) (shape tool : Solid) (fuzzy_value : ℚ) :
    ((perform_solid_imprinting k shape tool fuzzy_value).status
        = .merge_into_shape →
      volume_of_shape (perform_solid_imprinting k shape tool fuzzy_value).shape
        = volume_of_shape shape ∧
      volume_of_shape (perform_solid_imprinting k shape tool fuzzy_value).tool
        = volume_of_shape tool
          - (perform_solid_imprinting k shape tool fuzzy_value).vol_common) ∧
    ((perform_solid_imprinting k shape tool fuzzy_value).status
        = .merge_into_tool →
      volume_of_shape (perform_solid_imprinting k shape tool fuzzy_value).tool
        = volume_of_shape tool ∧
      volume_of_shape (perform_solid_imprinting k shape tool fuzzy_value).shape
        = volume_of_shape shape
          - (perform_solid_imprinting k shape tool fuzzy_value).vol_common) := by
  have hshape : volume_of_shape (shape \ tool ∪ shape ∩ tool)
      = volume_of_shape shape := by
    rw [Finset.sdiff_union_inter]
  have htool : volume_of_shape (tool \ shape ∪ shape ∩ tool)
      = volume_of_shape tool := by
    rw [Finset.inter_comm, Finset.sdiff_union_inter]
  have hcutS : volume_of_shape (shape \ tool)
      = volume_of_shape shape - volume_of_shape (shape ∩ tool) := by
    have h := Finset.card_inter_add_card_sdiff shape tool
    simp only [volume_of_shape]
    push_cast [← h]
    ring
  have hcutT : volume_of_shape (tool \ shape)
      = volume_of_shape tool - volume_of_shape (shape ∩ tool) := by
    have h := Finset.card_inter_add_card_sdiff tool shape
    simp only [volume_of_shape, Finset.inter_comm tool shape] at h ⊢
    push_cast [← h]
    ring
  simp only [perform_solid_imprinting]
  split_ifs <;>
    refine ⟨fun hst => ?_, fun hst => ?_⟩ <;>
      first
        | exact absurd hst (by decide)
        | exact ⟨hshape, hcutT⟩
        | exact ⟨htool, hcutS⟩

/-- Witness for the amended C1 at the corner-overlap pair. -/
theorem perform_solid_imprinting_volume_witness :
    (volume_of_shape
        (perform_solid_imprinting exact_kernel {0, 1, 2} {2, 3} 0).shape
      = volume_of_shape ({0, 1, 2} : Solid) ∧
    volume_of_shape
        (perform_solid_imprinting exact_kernel {0, 1, 2} {2, 3} 0).tool
      = volume_of_shape ({2, 3} : Solid)
        - (perform_solid_imprinting exact_kernel {0, 1, 2} {2, 3} 0).vol_common) :=
  (perform_solid_imprinting_volume exact_kernel {0, 1, 2} {2, 3} 0).1
    (by decide)

/-- Accumulate decimal digits, as the libc strtol loop does. -/
def digits_to_nat : ℕ → List Char → Option ℕ
  | acc, [] => some acc
  | acc, c :: cs =>
    if '0' ≤ c ∧ c ≤ '9' then
      digits_to_nat (acc * 10 + (c.toNat - '0'.toNat)) cs
    else none

/-- int_of_string from utils.cpp, a checked strtol wrapper that insists the
whole string is consumed.  strtol itself is libc, external to the
repository; it is modelled here for plain decimal numerals with an
optional leading minus sign, the only form the pipeline reads and writes
(range overflow and the hexadecimal and whitespace forms are out of the
model). -/
def int_of_string : List Char → Option ℤ
  | [] => none
  | '-' :: cs =>
    match cs with
    | [] => none
    | _ => (digits_to_nat 0 cs).map (fun n => -(n : ℤ))
  | cs => (digits_to_nat 0 cs).map (fun n => (n : ℤ))

/-- document::lookup_solid: parse the field as an integer and range-check
it against the number of solids, yielding none (source: -1) on failure. -/
def lookup_solid (doc : List Solid) (s : List Char) : Option ℕ :=
  match int_of_string s with
  | none => none
  | some idx =>
    if idx < 0 ∨ (doc.length : ℤ) ≤ idx then none else some idx.toNat

/-- The row-processing loop of the imprinting stage (function imprint in
the graveyard/imprint tool): for each CSV row take the first two fields as
solid indices (any further fields, including the status, are not read), run
perform_solid_imprinting at fuzzy value 0.01, skip the document update and
count the failure when the imprint failed, and otherwise overwrite both
slots with the returned shapes.  A row with fewer than two fields or with
an invalid index is fatal (the Bool component).  Arguments: per-row kernel
outcomes, remaining rows, document, row position, failures so far. -/
def imprint_loop (ik : ℕ → imprint_kernel) :
    List (List (List Char)) → List Solid → ℕ → ℕ → List Solid × ℕ × Bool
  | [], doc, _, num_failed => (doc, num_failed, false)
  | fields :: rest, doc, pos, num_failed =>
    match fields with
    | a :: b :: _ =>
      match lookup_solid doc a with
      | none => (doc, num_failed, true)
      | some first =>
        match lookup_solid doc b with
        | none => (doc, num_failed, true)
        | some second =>
          let res := perform_solid_imprinting (ik pos)
            (doc.getD first ∅) (doc.getD second ∅) (1/100)
          if res.status = imprint_status.failed then
            imprint_loop ik rest doc (pos + 1) (num_failed + 1)
          else
            imprint_loop ik rest
              ((doc.set first res.shape).set second res.tool)
              (pos + 1) num_failed
    | _ => (doc, num_failed, true)

/-- main of the imprinting stage: run the row loop on the whole input; a
fatal row, a trailing stream-read error, or a positive failure count exits
with code 1 and the output BREP file is not written (none); otherwise the
final document is written. -/
def imprint_main (ik : ℕ → imprint_kernel) (rows : List (List (List Char)))
    (doc : List Solid) (read_failed : Bool) : ℕ × Option (List Solid) :=
  let out := imprint_loop ik rows doc 0 0
  let code : ℕ :=
    if out.2.2 then 1 else
    if read_failed then 1 else
    if 0 < out.2.1 then 1 else 0
  if code = 0 then (0, some out.1) else (code, none)

/-- C4: a consumed pair row whose imprint fails leaves the document
exactly as it was (the loop moves on with the same slots, counting the
failure), and a run that processes all rows with at least one failure
exits non-zero and does not write the output file. -/
theorem imprint_failed_row_policy :
    (∀ (ik : ℕ → imprint_kernel) (rest : List (List (List Char)))
        (doc : List Solid) (pos num_failed : ℕ) (a b : List Char)
        (extra : List (List Char)) (first second : ℕ),
      lookup_solid doc a = some first →
      lookup_solid doc b = some second →
      (perform_solid_imprinting (ik pos) (doc.getD first ∅)
          (doc.getD second ∅) (1/100)).status = .failed →
      imprint_loop ik ((a :: b :: extra) :: rest) doc pos num_failed
        = imprint_loop ik rest doc (pos + 1) (num_failed + 1)) ∧
    (∀ (ik : ℕ → imprint_kernel) (rows : List (List (List Char)))
        (doc : List Solid) (read_failed : Bool),
      (imprint_loop ik rows doc 0 0).2.2 = false →
      0 < (imprint_loop ik rows doc 0 0).2.1 →
      (imprint_main ik rows doc read_failed).1 ≠ 0 ∧
      (imprint_main ik rows doc read_failed).2 = none) := by
  constructor
  · intro ik rest doc pos num_failed a b extra first second h1 h2 h3
    simp only [imprint_loop, h1, h2]
    rw [if_pos h3]
  · intro ik rows doc read_failed hfat hnf
    cases read_failed <;> simp [imprint_main, hfat, hnf]

/-- Witness for C4: one row whose pave filler fails; the slots survive and
the stage refuses to write. -/
theorem imprint_failed_row_policy_witness :
    (imprint_loop (fun _ => failing_kernel) [[['0'], ['1']]]
        [({0} : Solid), {1}] 0 0
      = imprint_loop (fun _ => failing_kernel) [] [({0} : Solid), {1}] 1 1) ∧
    ((imprint_main (fun _ => failing_kernel) [[['0'], ['1']]]
        [({0} : Solid), {1}] false).1 ≠ 0 ∧
      (imprint_main (fun _ => failing_kernel) [[['0'], ['1']]]
        [({0} : Solid), {1}] false).2 = none) :=
  ⟨imprint_failed_row_policy.1 (fun _ => failing_kernel) [] [{0}, {1}] 0 0
      ['0'] ['1'] [] 0 1 (by decide) (by decide) (by decide),
    imprint_failed_row_policy.2 (fun _ => failing_kernel) [[['0'], ['1']]]
      [{0}, {1}] false (by decide) (by decide)⟩

/-- C5, counterexample: a row carrying status touch that names two
genuinely overlapping solids is imprinted all the same, and slot 0 is
rewritten from the two-cell solid to a one-cell solid, so the touch row is
not ignored. -/
theorem imprint_touch_row_cex :
    (imprint_loop (fun _ => exact_kernel)
        [[['0'], ['1'], ['t', 'o', 'u', 'c', 'h']]]
        [({0, 1} : Solid), {1, 2, 3}] 0 0).1
      = [({0} : Solid), {1, 2, 3}] ∧
    [({0} : Solid), {1, 2, 3}] ≠ [({0, 1} : Solid), {1, 2, 3}] := by
  exact ⟨by decide, by decide⟩

/-- C5, amended: the imprinter never reads the status field (or anything
past the first two fields), and whenever the imprint of a well-formed row
does not fail, both named slots are overwritten with the imprint results,
whatever the row's status says. -/
theorem imprint_status_field_ignored :
    ∀ (ik : ℕ → imprint_kernel) (rest : List (List (List Char)))
      (doc : List Solid) (pos num_failed : ℕ) (a b : List Char)
      (extra1 extra2 : List (List Char)),
      (imprint_loop ik ((a :: b :: extra1) :: rest) doc pos num_failed
        = imprint_loop ik ((a :: b :: extra2) :: rest) doc pos num_failed) ∧
      (∀ first second,
        lookup_solid doc a = some first →
        lookup_solid doc b = some second →
        (perform_solid_imprinting (ik pos) (doc.getD first ∅)
            (doc.getD second ∅) (1/100)).status ≠ .failed →
        imprint_loop ik ((a :: b :: extra1) :: rest) doc pos num_failed
          = imprint_loop ik rest
              ((doc.set first
                  (perform_solid_imprinting (ik pos) (doc.getD first ∅)
                    (doc.getD second ∅) (1/100)).shape).set second
                (perform_solid_imprinting (ik pos) (doc.getD first ∅)
                  (doc.getD second ∅) (1/100)).tool)
              (pos + 1) num_failed) := by
  intro ik rest doc pos num_failed a b extra1 extra2
  constructor
  · rfl
  · intro first second h1 h2 h3
    simp only [imprint_loop, h1, h2]
    rw [if_neg h3]

/-- Witness for the amended C5: the same overlapping pair under a touch
label and under an overlap label take the identical step, which rewrites
both slots. -/
theorem imprint_status_field_ignored_witness :
    (imprint_loop (fun _ => exact_kernel)
        [[['0'], ['1'], ['t', 'o', 'u', 'c', 'h']]]
        [({0, 1} : Solid), {1, 2, 3}] 0 0
      = imprint_loop (fun _ => exact_kernel)
        [[['0'], ['1'], ['o', 'v', 'e', 'r', 'l', 'a', 'p']]]
        [({0, 1} : Solid), {1, 2, 3}] 0 0) ∧
    (imprint_loop (fun _ => exact_kernel)
        [[['0'], ['1'], ['t', 'o', 'u', 'c', 'h']]]
        [({0, 1} : Solid), {1, 2, 3}] 0 0
      = imprint_loop (fun _ => exact_kernel) []
          (([({0, 1} : Solid), {1, 2, 3}].set 0
              (perform_solid_imprinting (exact_kernel)
                ([({0, 1} : Solid), {1, 2, 3}].getD 0 ∅)
                ([({0, 1} : Solid), {1, 2, 3}].getD 1 ∅) (1/100)).shape).set 1
            (perform_solid_imprinting (exact_kernel)
              ([({0, 1} : Solid), {1, 2, 3}].getD 0 ∅)
              ([({0, 1} : Solid), {1, 2, 3}].getD 1 ∅) (1/100)).tool)
          1 0) := by
  have h := imprint_status_field_ignored (fun _ => exact_kernel) []
    [({0, 1} : Solid), {1, 2, 3}] 0 0 ['0'] ['1']
    [['t', 'o', 'u', 'c', 'h']] [['o', 'v', 'e', 'r', 'l', 'a', 'p']]
  exact ⟨h.1, h.2 0 1 (by decide) (by decide) (by decide)⟩

/-- The per-ordinal volume-change counter of the merger stage's main: count
the ordinals whose input and glued volumes differ by more than 0.1 percent
of the smaller of the two. -/
def merge_num_changed (inp out : List Solid) : ℕ :=
  (List.range inp.length).countP (fun i =>
    decide (|volume_of_shape (inp.getD i ∅) - volume_of_shape (out.getD i ∅)|
      > min (volume_of_shape (inp.getD i ∅)) (volume_of_shape (out.getD i ∅))
        * (1/1000)))

/-- main of the merger stage after the glue: the glued solids (the output
of salome_glue_shape, abstract here) are compared against the input; a
changed solid count or a positive volume-change count exits 1 without
writing, otherwise the glued document is written. -/
def merge_solids_main (inp out : List Solid) : ℕ × Option (List Solid) :=
  if out.length ≠ inp.length then (1, none)
  else if 0 < merge_num_changed inp out then (1, none)
  else (0, some out)

/-- merge_num_changed is zero exactly when every ordinal's volume is
preserved to within 0.1 percent of the smaller volume. -/
theorem merge_num_changed_eq_zero (inp out : List Solid) :
    merge_num_changed inp out = 0 ↔
      ∀ i < inp.length,
        |volume_of_shape (inp.getD i ∅) - volume_of_shape (out.getD i ∅)|
          ≤ min (volume_of_shape (inp.getD i ∅))
              (volume_of_shape (out.getD i ∅)) * (1/1000) := by
  rw [merge_num_changed, List.countP_eq_zero]
  simp [List.mem_range, not_lt]

/-- C6: the merger exits 0 exactly when the glued document has the same
number of solids and every ordinal's volume is within 0.1 percent of the
smaller of input and output volume; it writes the output exactly when it
exits 0, and any violation therefore exits non-zero without writing. -/
theorem merge_solids_preserves_count_and_volume (inp out : List Solid) :
    ((merge_solids_main inp out).1 = 0 ↔
      (out.length = inp.length ∧
        ∀ i < inp.length,
          |volume_of_shape (inp.getD i ∅) - volume_of_shape (out.getD i ∅)|
            ≤ min (volume_of_shape (inp.getD i ∅))
                (volume_of_shape (out.getD i ∅)) * (1/1000))) ∧
    ((merge_solids_main inp out).2 = some out ↔
      (merge_solids_main inp out).1 = 0) := by
  by_cases hlen : out.length = inp.length
  · by_cases hch : merge_num_changed inp out = 0
    · simp [merge_solids_main, hlen, hch]
      simpa using (merge_num_changed_eq_zero inp out).mp hch
    · have hpos : 0 < merge_num_changed inp out := Nat.pos_of_ne_zero hch
      simp [merge_solids_main, hlen, hpos]
      have hne : ¬ ∀ i < inp.length,
          |volume_of_shape (inp.getD i ∅) - volume_of_shape (out.getD i ∅)|
            ≤ min (volume_of_shape (inp.getD i ∅))
                (volume_of_shape (out.getD i ∅)) * (1/1000) :=
        fun hall => hch ((merge_num_changed_eq_zero inp out).mpr hall)
      push_neg at hne
      simpa using hne
  · simp [merge_solids_main, hlen]

/-- Witness for C6 at a concrete one-solid document and glued output. -/
theorem merge_solids_preserves_count_and_volume_witness :
    ((merge_solids_main [({0} : Solid)] [({0, 1} : Solid)]).1 = 0 ↔
      (([({0, 1} : Solid)]).length = ([({0} : Solid)]).length ∧
        ∀ i < ([({0} : Solid)]).length,
          |volume_of_shape (([({0} : Solid)]).getD i ∅)
              - volume_of_shape (([({0, 1} : Solid)]).getD i ∅)|
            ≤ min (volume_of_shape (([({0} : Solid)]).getD i ∅))
                (volume_of_shape (([({0, 1} : Solid)]).getD i ∅))
              * (1/1000))) ∧
    ((merge_solids_main [({0} : Solid)] [({0, 1} : Solid)]).2
        = some [({0, 1} : Solid)] ↔
      (merge_solids_main [({0} : Solid)] [({0, 1} : Solid)]).1 = 0) :=
  merge_solids_preserves_count_and_volume [{0}] [{0, 1}]

/-- The shape-type tags of the kernel topology (TopAbs_ShapeEnum). -/
inductive shape_kind where
  | compound
  | compsolid
  | solid
  | shell
  | face
  | wire
  | edge
  | vertex
  | shape
  deriving DecidableEq, Repr

/-- A kernel shape as the BREP reader delivers it: a type tag and the list
of immediate children in document order. -/
inductive TopoShape where
  | node : shape_kind → List TopoShape → TopoShape

/-- The type tag of a shape (TopoDS_Shape::ShapeType). -/
def TopoShape.kind : TopoShape → shape_kind
  | .node t _ => t

/-- The immediate children of a shape, in document order. -/
def TopoShape.children : TopoShape → List TopoShape
  | .node _ cs => cs

/-- The child loop of document::load_brep_file: push each child that is a
COMPOUND, COMPSOLID or SOLID, and exit fatally (none) on anything else. -/
def load_solid_children : List TopoShape → Option (List TopoShape)
  | [] => some []
  | c :: cs =>
    match c.kind with
    | .compound | .compsolid | .solid =>
      (load_solid_children cs).map (fun rest => c :: rest)
    | _ => none

/-- document::load_brep_file from the latest geometry translation unit,
applied to the shape the (external) BREP reader produced: the top-level
shape must be a COMPOUND or COMPSOLID, and each child is loaded by
load_solid_children; any violation exits 1, modelled as none. -/
def load_brep_file (s : TopoShape) : Option (List TopoShape) :=
  match s.kind with
  | .compound | .compsolid => load_solid_children s.children
  | _ => none

/-- load_solid_children succeeds exactly on lists whose members are all
COMPOUND, COMPSOLID or SOLID, and then returns the list unchanged. -/
theorem load_solid_children_eq (cs : List TopoShape) :
    load_solid_children cs =
      if ∀ c ∈ cs, (c.kind = .compound ∨ c.kind = .compsolid ∨
          c.kind = .solid)
        then some cs else none := by
  induction cs with
  | nil => simp [load_solid_children]
  | cons c cs ih =>
    cases hk : c.kind <;>
      simp [load_solid_children, hk, ih]

/-- C7, counterexample: a COMPSOLID whose only child is a COMPOUND is
accepted by load_brep_file, although the claim admits only SOLID and
COMPSOLID children. -/
theorem load_brep_file_compound_child_cex :
    load_brep_file (.node .compsolid [.node .compound []])
      = some [.node .compound []] ∧
    (TopoShape.node .compound []).kind ≠ .solid ∧
    (TopoShape.node .compound []).kind ≠ .compsolid :=
  ⟨rfl, by decide, by decide⟩

/-- C7, amended: loading succeeds, returning the children in document
order, exactly when the top-level shape is a COMPOUND or COMPSOLID and
every immediate child is a COMPOUND, COMPSOLID or SOLID; any other
top-level or child type is fatal (none, exit 1). -/
theorem load_brep_file_structure (s : TopoShape) :
    load_brep_file s =
      if (s.kind = .compound ∨ s.kind = .compsolid) ∧
          ∀ c ∈ s.children, (c.kind = .compound ∨ c.kind = .compsolid ∨
            c.kind = .solid)
        then some s.children else none := by
  obtain ⟨t, cs⟩ := s
  cases t <;>
    simp [load_brep_file, TopoShape.kind, TopoShape.children,
      load_solid_children_eq]

/-- Witness for the amended C7 at a concrete two-child compsolid. -/
theorem load_brep_file_structure_witness :
    load_brep_file (.node .compsolid [.node .solid [], .node .shell []]) =
      (if ((TopoShape.node .compsolid
              [.node .solid [], .node .shell []]).kind = .compound ∨
            (TopoShape.node .compsolid
              [.node .solid [], .node .shell []]).kind = .compsolid) ∧
          ∀ c ∈ (TopoShape.node .compsolid
              [.node .solid [], .node .shell []]).children,
            (c.kind = .compound ∨ c.kind = .compsolid ∨ c.kind = .solid)
        then some (TopoShape.node .compsolid
            [.node .solid [], .node .shell []]).children
        else none) :=
  load_brep_file_structure (.node .compsolid [.node .solid [], .node .shell []])

/-- One drained result of the overlap checker's async map: the pair
indices and the classification. -/
structure worker_output where
  hi : ℕ
  lo : ℕ
  result : intersect_result
  deriving DecidableEq

/-- Status field of a CSV row the overlap checker prints to stdout. -/
inductive out_row_status where
  | touch
  | overlap
  | bad_overlap
  deriving DecidableEq, Repr

/-- A CSV row printed by the overlap checker: indices, status, and for
overlap rows the common volume and the two solid volumes. -/
structure out_row where
  hi : ℕ
  lo : ℕ
  status : out_row_status
  vols : Option (ℚ × ℚ × ℚ)
  deriving DecidableEq

/-- One iteration of the overlap checker's reporting loop on a drained
result: the CSV row it prints (if any), whether it counts a failure
(failed or timeout), and whether it counts a bad overlap.  An overlap is
bad exactly when vol_common exceeds min volume times the configured
ratio. -/
def overlap_step (volumes : ℕ → ℚ) (max_common_volume_ratio : ℚ)
    (o : worker_output) : Option out_row × Bool × Bool :=
  match o.result.status with
  | .failed => (none, true, false)
  | .timeout => (none, true, false)
  | .distinct => (none, false, false)
  | .touching => (some ⟨o.hi, o.lo, .touch, none⟩, false, false)
  | .overlap =>
    let vol_common := o.result.vol_common
    let min_vol := min (volumes o.hi) (volumes o.lo)
    let max_overlap := min_vol * max_common_volume_ratio
    if vol_common > max_overlap then
      (some ⟨o.hi, o.lo, .bad_overlap,
        some (vol_common, volumes o.hi, volumes o.lo)⟩, false, true)
    else
      (some ⟨o.hi, o.lo, .overlap,
        some (vol_common, volumes o.hi, volumes o.lo)⟩, false, false)

/-- The reporting loop of the overlap checker's main over all drained
results: the emitted CSV rows in order, the failure count (failed and
timeout classifications both count), and the bad-overlap count. -/
def overlap_report (volumes : ℕ → ℚ) (max_common_volume_ratio : ℚ) :
    List worker_output → List out_row × ℕ × ℕ
  | [] => ([], 0, 0)
  | o :: rest =>
    let s := overlap_step volumes max_common_volume_ratio o
    let r := overlap_report volumes max_common_volume_ratio rest
    (match s.1 with
      | none => r.1
      | some row => row :: r.1,
     (if s.2.1 then 1 else 0) + r.2.1,
     (if s.2.2 then 1 else 0) + r.2.2)

/-- The exit code of the overlap checker's main: 1 when the failure count
or the bad-overlap count is non-zero, else 0. -/
def overlap_checker_exit (volumes : ℕ → ℚ) (max_common_volume_ratio : ℚ)
    (outs : List worker_output) : ℕ :=
  let r := overlap_report volumes max_common_volume_ratio outs
  if r.2.1 ≠ 0 ∨ r.2.2 ≠ 0 then 1 else 0

/-- The bad-overlap counter equals the number of emitted rows whose status
is bad_overlap. -/
theorem overlap_report_bad_count (volumes : ℕ → ℚ)
    (max_common_volume_ratio : ℚ) (outs : List worker_output) :
    ((overlap_report volumes max_common_volume_ratio outs).1.countP
        (fun row => decide (row.status = .bad_overlap)))
      = (overlap_report volumes max_common_volume_ratio outs).2.2 := by
  induction outs with
  | nil => simp [overlap_report]
  | cons o rest ih =>
    cases hst : o.result.status
    case failed => simp [overlap_report, overlap_step, hst, ih]
    case timeout => simp [overlap_report, overlap_step, hst, ih]
    case distinct => simp [overlap_report, overlap_step, hst, ih]
    case touching =>
      simp [overlap_report, overlap_step, hst, List.countP_cons, ih]
    case overlap =>
      by_cases hgt : min (volumes o.hi) (volumes o.lo)
          * max_common_volume_ratio < o.result.vol_common
      · simp [overlap_report, overlap_step, hst, hgt, List.countP_cons, ih]
        omega
      · simp [overlap_report, overlap_step, hst, hgt, List.countP_cons, ih]

/-- C8: in the reporting loop, an overlap classification is emitted as a
bad_overlap row exactly when vol_common exceeds the configured ratio times
the smaller solid volume (and as an overlap row otherwise), and the
process exit code is non-zero exactly when the count of emitted
bad_overlap rows plus the failure count is non-zero. -/
theorem overlap_checker_row_status_and_exit (volumes : ℕ → ℚ)
    (max_common_volume_ratio : ℚ) (outs : List worker_output) :
    (∀ o ∈ outs, o.result.status = .overlap →
      ((overlap_step volumes max_common_volume_ratio o).1 =
          some ⟨o.hi, o.lo, .bad_overlap,
            some (o.result.vol_common, volumes o.hi, volumes o.lo)⟩ ↔
        o.result.vol_common >
          max_common_volume_ratio * min (volumes o.hi) (volumes o.lo)) ∧
      ((overlap_step volumes max_common_volume_ratio o).1 =
          some ⟨o.hi, o.lo, .overlap,
            some (o.result.vol_common, volumes o.hi, volumes o.lo)⟩ ↔
        ¬ o.result.vol_common >
          max_common_volume_ratio * min (volumes o.hi) (volumes o.lo))) ∧
    (overlap_checker_exit volumes max_common_volume_ratio outs ≠ 0 ↔
      ((overlap_report volumes max_common_volume_ratio outs).1.countP
          (fun row => decide (row.status = .bad_overlap)))
        + (overlap_report volumes max_common_volume_ratio outs).2.1 ≠ 0) := by
  constructor
  · intro o _ hst
    by_cases hgt : o.result.vol_common >
        max_common_volume_ratio * min (volumes o.hi) (volumes o.lo)
    · constructor <;>
        simp [overlap_step, hst, hgt,
          mul_comm (min (volumes o.hi) (volumes o.lo)) max_common_volume_ratio]
    · constructor <;>
        simp [overlap_step, hst, hgt,
          mul_comm (min (volumes o.hi) (volumes o.lo)) max_common_volume_ratio]
  · rw [overlap_checker_exit, overlap_report_bad_count]
    by_cases hf : (overlap_report volumes max_common_volume_ratio outs).2.1 = 0 <;>
      by_cases hb : (overlap_report volumes max_common_volume_ratio outs).2.2 = 0 <;>
        simp [hf, hb]

/-- An overlap classification used to witness C8. -/
def plain_overlap_result : intersect_result :=
  { status := .overlap, fuzzy_value := 1/1000,
    num_filler_warnings := 0, num_common_warnings := 0,
    num_section_warnings := 0,
    vol_common := 5, vol_cut := 95, vol_cut12 := 95,
    pave_time_seconds := 0 }

/-- Witness for C8 at one concrete drained overlap result. -/
theorem overlap_checker_row_status_and_exit_witness :
    (((overlap_step (fun _ => 10) (1/100) ⟨1, 0, plain_overlap_result⟩).1 =
        some ⟨1, 0, .bad_overlap, some (5, 10, 10)⟩ ↔
      (5 : ℚ) > (1/100) * min 10 10) ∧
    ((overlap_step (fun _ => 10) (1/100) ⟨1, 0, plain_overlap_result⟩).1 =
        some ⟨1, 0, .overlap, some (5, 10, 10)⟩ ↔
      ¬ (5 : ℚ) > (1/100) * min 10 10)) ∧
    (overlap_checker_exit (fun _ => 10) (1/100) [⟨1, 0, plain_overlap_result⟩]
        ≠ 0 ↔
      ((overlap_report (fun _ => 10) (1/100)
          [⟨1, 0, plain_overlap_result⟩]).1.countP
          (fun row => decide (row.status = .bad_overlap)))
        + (overlap_report (fun _ => 10) (1/100)
            [⟨1, 0, plain_overlap_result⟩]).2.1 ≠ 0) :=
  ⟨(overlap_checker_row_status_and_exit (fun _ => 10) (1/100)
      [⟨1, 0, plain_overlap_result⟩]).1 ⟨1, 0, plain_overlap_result⟩
      (List.mem_singleton.mpr rfl) rfl,
    (overlap_checker_row_status_and_exit (fun _ => 10) (1/100)
      [⟨1, 0, plain_overlap_result⟩]).2⟩

/-- The max-common-volume-ratio validation in the overlap checker's main:
the configuration is rejected (error logged, exit 1) exactly when the C++
condition R greater-equal 0 and R less-equal 1 fails to hold. -/
def max_common_volume_ratio_rejected (max_common_volume_ratio : ℚ) : Bool :=
  !(decide (max_common_volume_ratio ≥ 0) &&
    decide (max_common_volume_ratio ≤ 1))

/-- C9: the ratio check accepts the closed interval from 0 to 1, in
particular it accepts both 0 and 1 although the accompanying error message
(and the claim) describe the open interval; only negative values or values
above 1 are rejected. -/
theorem max_common_volume_ratio_boundary :
    max_common_volume_ratio_rejected 0 = false ∧
    max_common_volume_ratio_rejected 1 = false ∧
    max_common_volume_ratio_rejected (-1/2) = true ∧
    max_common_volume_ratio_rejected (3/2) = true := by
  refine ⟨by norm_num [max_common_volume_ratio_rejected],
    by norm_num [max_common_volume_ratio_rejected],
    by norm_num [max_common_volume_ratio_rejected],
    by norm_num [max_common_volume_ratio_rejected]⟩

end OverlapChecker
